import Mathlib

/-!
Shallow embedding of the AtalBhujal frontend logic
(src/Frontend/src/pages/Explore.tsx, Ask.tsx, and the Report page),
with theorems checking the natural-language specification against it.
-/

namespace AtalBhujal

/-! ### Name normalizer

`const cleanName = (val: string) => val.split("_")[0];`

JavaScript `split("_")` cuts the string at every occurrence of the
delimiter; the element at index 0 is the piece before the first
occurrence (the whole string when the delimiter is absent, and `""`
for the empty string, since `"".split("_") === [""]`).
-/

/-- JS `String.prototype.split("_")` on a character list; `acc` holds the
current piece reversed. -/
def splitUnderscoreAux : List Char → List Char → List (List Char)
  | [], acc => [acc.reverse]
  | c :: cs, acc =>
      if c = '_' then acc.reverse :: splitUnderscoreAux cs []
      else splitUnderscoreAux cs (c :: acc)

/-- `val.split("_")` as in the source. -/
def jsSplitUnderscore (l : List Char) : List (List Char) :=
  splitUnderscoreAux l []

/-- `cleanName` from Explore.tsx line 33 and the Report page line 24:
`val.split("_")[0]`. -/
def cleanName (val : String) : String :=
  String.mk ((jsSplitUnderscore val.toList).headD [])

lemma splitUnderscoreAux_headD (cs : List Char) :
    ∀ acc : List Char,
      (splitUnderscoreAux cs acc).headD [] =
        acc.reverse ++ cs.takeWhile (fun c => c ≠ '_') := by
  induction cs with
  | nil => intro acc; simp [splitUnderscoreAux]
  | cons c cs ih =>
      intro acc
      by_cases hc : c = '_'
      · subst hc
        simp [splitUnderscoreAux, List.takeWhile_cons]
      · have hstep : splitUnderscoreAux (c :: cs) acc = splitUnderscoreAux cs (c :: acc) := by
          simp [splitUnderscoreAux, hc]
        rw [hstep, ih (c :: acc)]
        simp [List.takeWhile_cons, hc]

/-- The normalizer keeps exactly the characters before the first `'_'`. -/
lemma cleanName_eq_takeWhile (val : String) :
    cleanName val = String.mk (val.toList.takeWhile (fun c => c ≠ '_')) := by
  rw [cleanName, jsSplitUnderscore, splitUnderscoreAux_headD]
  simp

lemma toList_mk (l : List Char) : (String.mk l).toList = l := rfl

lemma mk_toList (s : String) : String.mk s.toList = s := rfl

/-! ### Raw filter rows and the cascading dropdown effects

`/available-filters` returns raw rows `{state, district, block}`; the load
effect cleans each field with `cleanName` and stores them in `rawFilters`.
-/

/-- One row of `res.raw` as returned by `/available-filters`. -/
structure RawRow where
  state : String
  district : String
  block : String
deriving DecidableEq, Repr

/-- A cleaned row of `rawFilters`. -/
structure Row where
  state : String
  district : String
  block : String
deriving DecidableEq, Repr

/-- The cleaning applied inside the load effect:
`{ state: cleanName(r.state), district: cleanName(r.district), block: cleanName(r.block) }`. -/
def cleanRow (r : RawRow) : Row :=
  ⟨cleanName r.state, cleanName r.district, cleanName r.block⟩

/-- `res.raw.map(cleanRow)`: the `rawFilters` list built at load time. -/
def loadRows (raw : List RawRow) : List Row :=
  raw.map cleanRow

/-- `[...new Set(l)]`: JS `Set` keeps the first occurrence of each element;
`seen` holds the elements already emitted. -/
def jsSetDedupAux (seen : List String) : List String → List String
  | [] => []
  | x :: xs =>
      if x ∈ seen then jsSetDedupAux seen xs
      else x :: jsSetDedupAux (x :: seen) xs

/-- `[...new Set(l)]` as used when building dropdown options. -/
def jsSetDedup (l : List String) : List String :=
  jsSetDedupAux [] l

/-- Index of the first occurrence of `x` in `l` (length of `l` when absent). -/
def firstIdx (l : List String) (x : String) : Nat :=
  match l with
  | [] => 0
  | y :: ys => if y = x then 0 else firstIdx ys x + 1

/-- The district values of the rows whose state equals the selection:
`rawFilters.filter(r => r.state === s).map(r => r.district)`. -/
def districtCandidates (rows : List Row) (s : String) : List String :=
  (rows.filter (fun r => r.state = s)).map (fun r => r.district)

/-- The district dropdown contents: `[...new Set(districts)]`. -/
def districtOptions (rows : List Row) (s : String) : List String :=
  jsSetDedup (districtCandidates rows s)

/-- The state-change effect: `if (!filters.state) return;` then set the
district options; `none` models the early return (no update). -/
def stateEffectDistricts (rows : List Row) (s : String) : Option (List String) :=
  if s = "" then none else some (districtOptions rows s)

/-- The UI filter selection of the Explore page (all dropdowns hold strings;
the year select stores `y.toString()`). -/
structure Filters where
  state : String
  district : String
  block : String
  year : String
  season : String
deriving DecidableEq, Repr

/-- The block values of the rows whose district equals the selection:
`rawFilters.filter(r => r.district === d).map(r => r.block)`. -/
def blockCandidates (rows : List Row) (d : String) : List String :=
  (rows.filter (fun r => r.district = d)).map (fun r => r.block)

/-- The block dropdown contents: `[...new Set(blocks)]`. -/
def blockOptions (rows : List Row) (d : String) : List String :=
  jsSetDedup (blockCandidates rows d)

/-- The district-change effect: `if (!filters.district) return;` then set the
block options from the rows filtered by `filters.district` alone. -/
def districtEffectBlocks (rows : List Row) (f : Filters) : Option (List String) :=
  if f.district = "" then none
  else some (blockOptions rows f.district)

/-! ### handleSearch: query construction and chart data -/

/-- `Object.entries(filters)` in the object's key order. -/
def filterEntries (f : Filters) : List (String × String) :=
  [("state", f.state), ("district", f.district), ("block", f.block),
   ("year", f.year), ("season", f.season)]

/-- The query parameters appended by `handleSearch`:
`Object.entries(filters).forEach(([k, v]) => { if (v) qp.append(k, v); })`
(a string is truthy exactly when it is non-empty). -/
def searchParams (f : Filters) : List (String × String) :=
  (filterEntries f).filter (fun p => p.2 ≠ "")

/-- A record returned by `/water-level`. -/
structure Record where
  district : String
  block : String
  season : String
  year : Int
  water_level : Int
deriving DecidableEq, Repr

/-- One chart point `{ year: r.year, level: r.water_level }`. -/
structure ChartPoint where
  year : Int
  level : Int
deriving DecidableEq, Repr

/-- `setChartData(res.map(r => ({ year: r.year, level: r.water_level })))`. -/
def chartData (res : List Record) : List ChartPoint :=
  res.map (fun r => ⟨r.year, r.water_level⟩)

/-! ### Ask page: handleSubmit (Ask.tsx) -/

/-- One chat message `{ type: "user" | "bot", content }`. -/
structure Message where
  type : String
  content : String
deriving DecidableEq, Repr

/-- JS `String.prototype.trim()`: whitespace removed from both ends. -/
def jsTrim (s : String) : String :=
  String.mk (((s.toList.dropWhile Char.isWhitespace).reverse.dropWhile
    Char.isWhitespace).reverse)

/-- Outcome of `await postData("/ask_ai", ...)`: a JSON response whose
`answer` field may be absent, or a thrown error. -/
inductive AskResult where
  | ok (answer : Option String)
  | error
deriving DecidableEq, Repr

/-- The fallback used on the normal answer path:
`response?.answer || "Sorry, I couldn't fetch an answer."`. -/
def askFallbackMsg : String := "Sorry, I couldn't fetch an answer."

/-- The bot message appended in the `catch` branch. -/
def askFailureMsg : String :=
  "⚠️ Unable to reach AI backend. Please check if the server is running."

/-- `response?.answer || askFallbackMsg` (`||` falls through on a missing
or empty `answer`, both falsy). -/
def askReply (answer : Option String) : String :=
  match answer with
  | none => askFallbackMsg
  | some a => if a = "" then askFallbackMsg else a

/-- `handleSubmit` of Ask.tsx, as a function of the current query, the
current message list and the backend outcome. It returns the final message
list paired with the request body sent to `/ask_ai` (`none` when no request
is issued: the guard `if (!query.trim()) return;`). -/
def handleSubmit (query : String) (messages : List Message)
    (result : AskResult) : List Message × Option String :=
  if jsTrim query = "" then (messages, none)
  else
    let withUser := messages ++ [⟨"user", query⟩]
    match result with
    | .ok answer => (withUser ++ [⟨"bot", askReply answer⟩], some query)
    | .error => (withUser ++ [⟨"bot", askFailureMsg⟩], some query)

/-! ### Report page: handleGenerateReport -/

/-- The `reportConfig` state of the Report page. -/
structure ReportConfig where
  state : String
  district : String
  block : String
  reportType : String
  includeCharts : Bool
  includeTrends : Bool
  includeComparisons : Bool
  includeRecommendations : Bool
deriving DecidableEq, Repr

/-- What `handleGenerateReport` does before any network activity: either a
destructive toast (title, description) with an early return, or the
`postData("/generate_report", reportConfig)` request. -/
inductive ReportOutcome where
  | validationError (title description : String)
  | request (config : ReportConfig)
deriving DecidableEq, Repr

/-- `if (!reportConfig.state || !reportConfig.district || !reportConfig.reportType)`
then toast "Missing Information" / "Please fill all required fields." and
return; otherwise POST the config. -/
def handleGenerateReport (c : ReportConfig) : ReportOutcome :=
  if c.state = "" ∨ c.district = "" ∨ c.reportType = "" then
    .validationError "Missing Information" "Please fill all required fields."
  else .request c

/-- `needle` is a leading run of `hay` (character-by-character). -/
def leadingMatch : List Char → List Char → Bool
  | [], _ => true
  | _ :: _, [] => false
  | a :: as, b :: bs => a == b && leadingMatch as bs

/-- `needle` occurs contiguously somewhere inside `hay`. -/
def occursIn (needle : List Char) : List Char → Bool
  | [] => needle.isEmpty
  | c :: t => leadingMatch needle (c :: t) || occursIn needle t

/-! ### Helper lemmas about `jsSetDedup` and `firstIdx` -/

lemma mem_jsSetDedupAux (x : String) :
    ∀ (l seen : List String), x ∈ jsSetDedupAux seen l ↔ x ∈ l ∧ x ∉ seen := by
  intro l
  induction l with
  | nil => intro seen; simp [jsSetDedupAux]
  | cons y ys ih =>
      intro seen
      by_cases hy : y ∈ seen
      · rw [jsSetDedupAux, if_pos hy, ih seen]
        constructor
        · rintro ⟨h1, h2⟩; exact ⟨List.mem_cons_of_mem _ h1, h2⟩
        · rintro ⟨h1, h2⟩
          rcases List.mem_cons.1 h1 with rfl | h1
          · exact absurd hy h2
          · exact ⟨h1, h2⟩
      · rw [jsSetDedupAux, if_neg hy]
        constructor
        · intro h
          rcases List.mem_cons.1 h with rfl | h
          · exact ⟨List.mem_cons_self _ _, hy⟩
          · rcases (ih (y :: seen)).1 h with ⟨h1, h2⟩
            exact ⟨List.mem_cons_of_mem _ h1,
              fun hs => h2 (List.mem_cons_of_mem _ hs)⟩
        · rintro ⟨h1, h2⟩
          rcases List.mem_cons.1 h1 with rfl | h1
          · exact List.mem_cons_self _ _
          · by_cases hxy : x = y
            · subst hxy; exact List.mem_cons_self _ _
            · exact List.mem_cons_of_mem _ ((ih (y :: seen)).2
                ⟨h1, by simp [hxy, h2]⟩)

lemma nodup_jsSetDedupAux : ∀ (l seen : List String), (jsSetDedupAux seen l).Nodup := by
  intro l
  induction l with
  | nil => intro seen; simp [jsSetDedupAux]
  | cons y ys ih =>
      intro seen
      by_cases hy : y ∈ seen
      · rw [jsSetDedupAux, if_pos hy]; exact ih seen
      · rw [jsSetDedupAux, if_neg hy, List.nodup_cons]
        refine ⟨fun hmem => ?_, ih (y :: seen)⟩
        exact ((mem_jsSetDedupAux y ys (y :: seen)).1 hmem).2 (List.mem_cons_self _ _)

lemma firstIdx_cons_self (y : String) (ys : List String) : firstIdx (y :: ys) y = 0 := by
  simp [firstIdx]

lemma firstIdx_cons_ne {y x : String} (ys : List String) (h : y ≠ x) :
    firstIdx (y :: ys) x = firstIdx ys x + 1 := by
  simp [firstIdx, h]

lemma pairwise_firstIdx_jsSetDedupAux :
    ∀ (l seen : List String),
      (jsSetDedupAux seen l).Pairwise (fun a b => firstIdx l a < firstIdx l b) := by
  intro l
  induction l with
  | nil => intro seen; simp [jsSetDedupAux]
  | cons y ys ih =>
      intro seen
      by_cases hy : y ∈ seen
      · rw [jsSetDedupAux, if_pos hy]
        refine (ih seen).imp_of_mem ?_
        intro a b ha hb hab
        have hay : y ≠ a := fun h => ((mem_jsSetDedupAux a ys seen).1 ha).2 (h ▸ hy)
        have hby : y ≠ b := fun h => ((mem_jsSetDedupAux b ys seen).1 hb).2 (h ▸ hy)
        rw [firstIdx_cons_ne ys hay, firstIdx_cons_ne ys hby]
        omega
      · rw [jsSetDedupAux, if_neg hy, List.pairwise_cons]
        constructor
        · intro b hb
          have hbmem := (mem_jsSetDedupAux b ys (y :: seen)).1 hb
          have hby : y ≠ b := fun h => hbmem.2 (h ▸ List.mem_cons_self _ _)
          rw [firstIdx_cons_self, firstIdx_cons_ne ys hby]
          omega
        · refine (ih (y :: seen)).imp_of_mem ?_
          intro a b ha hb hab
          have hamem := (mem_jsSetDedupAux a ys (y :: seen)).1 ha
          have hbmem := (mem_jsSetDedupAux b ys (y :: seen)).1 hb
          have hay : y ≠ a := fun h => hamem.2 (h ▸ List.mem_cons_self _ _)
          have hby : y ≠ b := fun h => hbmem.2 (h ▸ List.mem_cons_self _ _)
          rw [firstIdx_cons_ne ys hay, firstIdx_cons_ne ys hby]
          omega

lemma mem_jsSetDedup (x : String) (l : List String) : x ∈ jsSetDedup l ↔ x ∈ l := by
  rw [jsSetDedup, mem_jsSetDedupAux]
  simp

lemma nodup_jsSetDedup (l : List String) : (jsSetDedup l).Nodup :=
  nodup_jsSetDedupAux l []

lemma pairwise_firstIdx_jsSetDedup (l : List String) :
    (jsSetDedup l).Pairwise (fun a b => firstIdx l a < firstIdx l b) :=
  pairwise_firstIdx_jsSetDedupAux l []

lemma mem_districtOptions (rows : List Row) (s d : String) :
    d ∈ districtOptions rows s ↔ ∃ r ∈ rows, r.state = s ∧ r.district = d := by
  rw [districtOptions, mem_jsSetDedup, districtCandidates]
  simp only [List.mem_map, List.mem_filter, decide_eq_true_eq]
  constructor
  · rintro ⟨r, ⟨hr, hs⟩, hd⟩; exact ⟨r, hr, hs, hd⟩
  · rintro ⟨r, hr, hs, hd⟩; exact ⟨r, ⟨hr, hs⟩, hd⟩

/-! ### Claim theorems -/

example : cleanName "Gujarat_1" = "Gujarat" := by decide
example : cleanName "Gujarat" = "Gujarat" := by decide
example : cleanName "" = "" := by decide
example : cleanName "_112" = "" := by decide
example : cleanName "a_b_c" = "a" := by decide

/-- C1: for every string `raw`, `cleanName raw` is the part of `raw` before
the first occurrence of the delimiter `"_"`; when `raw` has no delimiter it
is returned unchanged; and `cleanName "" = ""` (no failure on empty input). -/
theorem cleanName_takes_before_first_delimiter (raw : String) :
    cleanName raw = String.mk (raw.toList.takeWhile (fun c => c ≠ '_')) ∧
    ('_' ∉ raw.toList → cleanName raw = raw) ∧
    cleanName "" = "" := by
  refine ⟨cleanName_eq_takeWhile raw, fun h => ?_, rfl⟩
  rw [cleanName_eq_takeWhile]
  have : raw.toList.takeWhile (fun c => c ≠ '_') = raw.toList :=
    List.takeWhile_eq_self_iff.2 (by
      intro c hc
      simp only [ne_eq, decide_not, Bool.not_eq_true', decide_eq_false_iff_not]
      intro h'
      exact h (h' ▸ hc))
  rw [this, mk_toList]

/-- Witness for C1 at a concrete delimiter-free input. -/
theorem cleanName_takes_before_first_delimiter_witness :
    cleanName "Gujarat" = "Gujarat" :=
  (cleanName_takes_before_first_delimiter "Gujarat").2.1 (by decide)

/-- C8: the normalizer is idempotent: `cleanName (cleanName x) = cleanName x`
for every string `x`. -/
theorem cleanName_idempotent (x : String) :
    cleanName (cleanName x) = cleanName x := by
  rw [cleanName_eq_takeWhile x, cleanName_eq_takeWhile, toList_mk]
  exact congrArg String.mk List.takeWhile_idem

/-- C9: a non-empty raw name that starts with the delimiter `"_"` is
normalized to the empty string, so a non-empty raw location name can have
an empty canonical label. -/
theorem cleanName_leading_delimiter (rest : String) :
    ("_" ++ rest) ≠ "" ∧ cleanName ("_" ++ rest) = "" := by
  obtain ⟨data⟩ := rest
  refine ⟨fun h => ?_, rfl⟩
  have hdata : '_' :: data = ([] : List Char) := congrArg String.data h
  exact List.cons_ne_nil _ _ hdata

/-- C2: `handleSearch` puts a `(key, value)` pair into the issued query
exactly for the fields of `{state, district, block, year, season}` whose
current value is non-empty, keeping the current value; an empty field
contributes no criterion. -/
theorem searchParams_exactly_nonempty_fields (f : Filters) (k v : String) :
    (k, v) ∈ searchParams f ↔ ((k, v) ∈ filterEntries f ∧ v ≠ "") := by
  rw [searchParams, List.mem_filter]
  simp

/-- C3 counterexample: a query result whose records arrive with years
`2021, 2020` yields chart data in that same order, which is not sorted
ascending by year — the claim that the chart series is sorted by year
fails on the code, which never sorts. -/
theorem chartData_unsorted_counterexample :
    chartData [⟨"Mehsana", "Kadi", "pre", 2021, 5⟩, ⟨"Mehsana", "Kadi", "pre", 2020, 3⟩] =
      [⟨2021, 5⟩, ⟨2020, 3⟩] ∧
    ¬ (chartData [⟨"Mehsana", "Kadi", "pre", 2021, 5⟩,
        ⟨"Mehsana", "Kadi", "pre", 2020, 3⟩]).Pairwise (fun a b => a.year ≤ b.year) := by
  refine ⟨rfl, fun h => ?_⟩
  rcases List.pairwise_cons.1 h with ⟨h1, -⟩
  have h2 := h1 ⟨2020, 3⟩ (by simp [chartData])
  simp at h2

/-- C3 (amended): the chart series holds exactly one `(year, water_level)`
pair per record of the query result, in match order and never aggregated;
it is sorted ascending by year only when the result already is — the code
performs no sorting of its own. -/
theorem chartData_one_pair_per_record (res : List Record) :
    (chartData res).length = res.length ∧
    (∀ i : Nat, (chartData res)[i]? =
      (res[i]?).map (fun r => ChartPoint.mk r.year r.water_level)) ∧
    (res.Pairwise (fun a b => a.year ≤ b.year) →
      (chartData res).Pairwise (fun a b => a.year ≤ b.year)) := by
  refine ⟨by simp [chartData], fun i => by simp [chartData], fun h => ?_⟩
  exact h.map _ (fun a b hab => hab)

/-- Witness for C3 (amended) at a concrete year-sorted result. -/
theorem chartData_one_pair_per_record_witness :
    (chartData [⟨"Mehsana", "Kadi", "pre", 2020, 3⟩,
      ⟨"Mehsana", "Kadi", "pre", 2021, 5⟩]).Pairwise (fun a b => a.year ≤ b.year) :=
  (chartData_one_pair_per_record
    [⟨"Mehsana", "Kadi", "pre", 2020, 3⟩,
     ⟨"Mehsana", "Kadi", "pre", 2021, 5⟩]).2.2 (by decide)

/-- C4: after selecting a non-empty state, the district options are exactly
the distinct normalized district names of the raw filter rows whose
normalized state equals the selection, with no duplicates, ordered by first
occurrence; a state matching no rows yields the empty list, not an error. -/
theorem districtOptions_spec (raw : List RawRow) (s : String) (hs : s ≠ "") :
    ∃ opts, stateEffectDistricts (loadRows raw) s = some opts ∧
      (∀ d, d ∈ opts ↔ ∃ r ∈ raw, cleanName r.state = s ∧ cleanName r.district = d) ∧
      opts.Nodup ∧
      opts.Pairwise (fun a b =>
        firstIdx (districtCandidates (loadRows raw) s) a <
          firstIdx (districtCandidates (loadRows raw) s) b) ∧
      ((∀ r ∈ raw, cleanName r.state ≠ s) → opts = []) := by
  refine ⟨districtOptions (loadRows raw) s, by rw [stateEffectDistricts, if_neg hs],
    fun d => ?_, nodup_jsSetDedup _, pairwise_firstIdx_jsSetDedup _, fun hnone => ?_⟩
  · rw [mem_districtOptions]
    constructor
    · rintro ⟨r, hr, hsr, hdr⟩
      rcases List.mem_map.1 hr with ⟨r0, hr0, rfl⟩
      exact ⟨r0, hr0, hsr, hdr⟩
    · rintro ⟨r0, hr0, hsr, hdr⟩
      exact ⟨cleanRow r0, List.mem_map.2 ⟨r0, hr0, rfl⟩, hsr, hdr⟩
  · rw [List.eq_nil_iff_forall_not_mem]
    intro d hd
    rcases (mem_districtOptions (loadRows raw) s d).1 hd with ⟨r, hr, hsr, -⟩
    rcases List.mem_map.1 hr with ⟨r0, hr0, rfl⟩
    exact hnone r0 hr0 hsr

/-- Witness for C4 at a concrete raw filter list. -/
theorem districtOptions_spec_witness :
    ∃ opts,
      stateEffectDistricts
        (loadRows [⟨"Gujarat_1", "Mehsana_5", "Kadi_2"⟩,
          ⟨"Gujarat_2", "Mehsana_9", "Kalol_1"⟩]) "Gujarat" = some opts ∧
      (∀ d, d ∈ opts ↔ ∃ r ∈ [RawRow.mk "Gujarat_1" "Mehsana_5" "Kadi_2",
          RawRow.mk "Gujarat_2" "Mehsana_9" "Kalol_1"],
        cleanName r.state = "Gujarat" ∧ cleanName r.district = d) ∧
      opts.Nodup ∧
      opts.Pairwise (fun a b =>
        firstIdx (districtCandidates
          (loadRows [⟨"Gujarat_1", "Mehsana_5", "Kadi_2"⟩,
            ⟨"Gujarat_2", "Mehsana_9", "Kalol_1"⟩]) "Gujarat") a <
          firstIdx (districtCandidates
            (loadRows [⟨"Gujarat_1", "Mehsana_5", "Kadi_2"⟩,
              ⟨"Gujarat_2", "Mehsana_9", "Kalol_1"⟩]) "Gujarat") b) ∧
      ((∀ r ∈ [RawRow.mk "Gujarat_1" "Mehsana_5" "Kadi_2",
          RawRow.mk "Gujarat_2" "Mehsana_9" "Kalol_1"],
        cleanName r.state ≠ "Gujarat") → opts = []) :=
  districtOptions_spec
    [⟨"Gujarat_1", "Mehsana_5", "Kadi_2"⟩, ⟨"Gujarat_2", "Mehsana_9", "Kalol_1"⟩]
    "Gujarat" (by decide)

/-- C10: the block options depend only on the selected district, not on the
selected state: two selections sharing the district value produce the same
block dropdown, whatever their state values. -/
theorem blockOptions_state_independent (rows : List Row) (f1 f2 : Filters)
    (h : f1.district = f2.district) :
    districtEffectBlocks rows f1 = districtEffectBlocks rows f2 := by
  rw [districtEffectBlocks, districtEffectBlocks, h]

/-- Witness for C10: same district under two different states. -/
theorem blockOptions_state_independent_witness :
    districtEffectBlocks
      [⟨"Gujarat", "Mehsana", "Kadi"⟩, ⟨"Haryana", "Mehsana", "Sonipat"⟩]
      ⟨"Gujarat", "Mehsana", "", "", ""⟩ =
    districtEffectBlocks
      [⟨"Gujarat", "Mehsana", "Kadi"⟩, ⟨"Haryana", "Mehsana", "Sonipat"⟩]
      ⟨"Haryana", "Mehsana", "", "", ""⟩ :=
  blockOptions_state_independent
    [⟨"Gujarat", "Mehsana", "Kadi"⟩, ⟨"Haryana", "Mehsana", "Sonipat"⟩]
    ⟨"Gujarat", "Mehsana", "", "", ""⟩ ⟨"Haryana", "Mehsana", "", "", ""⟩ rfl

/-- C5 counterexample: with the state field missing, the validation error is
the fixed pair "Missing Information" / "Please fill all required fields.",
whose text never contains the offending field name "state"; indeed the same
message is produced when instead the district is missing, so it cannot name
the offending field. -/
theorem report_validation_generic_message_counterexample :
    handleGenerateReport ⟨"", "Mehsana", "", "annual", true, true, false, true⟩ =
      .validationError "Missing Information" "Please fill all required fields." ∧
    occursIn "state".toList "Missing Information".toList = false ∧
    occursIn "state".toList "Please fill all required fields.".toList = false ∧
    handleGenerateReport ⟨"", "Mehsana", "", "annual", true, true, false, true⟩ =
      handleGenerateReport ⟨"Gujarat", "", "", "annual", true, true, false, true⟩ := by
  refine ⟨by decide, by decide, by decide, by decide⟩

/-- C5 (amended): report generation validates that state, district and
report type are all present; if any is missing it produces the fixed
generic validation error ("Missing Information" / "Please fill all required
fields."), which does not name the offending field, and issues no
generate-report request; when all three are present the request proceeds
with the configuration. -/
theorem handleGenerateReport_validation (c : ReportConfig) :
    ((c.state = "" ∨ c.district = "" ∨ c.reportType = "") →
      handleGenerateReport c =
        .validationError "Missing Information" "Please fill all required fields.") ∧
    ((c.state ≠ "" ∧ c.district ≠ "" ∧ c.reportType ≠ "") →
      handleGenerateReport c = .request c) := by
  constructor
  · intro h
    rw [handleGenerateReport, if_pos h]
  · rintro ⟨h1, h2, h3⟩
    rw [handleGenerateReport, if_neg]
    simp [h1, h2, h3]

/-- Witness for C5 (amended): a complete configuration proceeds to the
request. -/
theorem handleGenerateReport_validation_witness :
    handleGenerateReport ⟨"Gujarat", "Mehsana", "", "annual", true, true, false, true⟩ =
      .request ⟨"Gujarat", "Mehsana", "", "annual", true, true, false, true⟩ :=
  (handleGenerateReport_validation
    ⟨"Gujarat", "Mehsana", "", "annual", true, true, false, true⟩).2
    ⟨by decide, by decide, by decide⟩

/-- C6: when the ask call errors, the chat receives an explicit textual
failure message, distinct from the normal-path fallback answer; and for
every backend outcome the handler still appends a displayable bot message
instead of propagating a failure. -/
theorem ask_error_degraded (q : String) (msgs : List Message)
    (hq : jsTrim q ≠ "") :
    (handleSubmit q msgs .error).1 =
      msgs ++ [⟨"user", q⟩, ⟨"bot", askFailureMsg⟩] ∧
    askFailureMsg ≠ askFallbackMsg ∧
    (∀ r : AskResult, ∃ reply : String,
      (handleSubmit q msgs r).1 = msgs ++ [⟨"user", q⟩, ⟨"bot", reply⟩]) := by
  refine ⟨by simp [handleSubmit, hq], by decide, fun r => ?_⟩
  cases r with
  | ok answer => exact ⟨askReply answer, by simp [handleSubmit, hq]⟩
  | error => exact ⟨askFailureMsg, by simp [handleSubmit, hq]⟩

/-- Witness for C6 at a concrete non-blank question. -/
theorem ask_error_degraded_witness :
    (handleSubmit "hello" [] .error).1 =
      [] ++ [⟨"user", "hello"⟩, ⟨"bot", askFailureMsg⟩] :=
  (ask_error_degraded "hello" [] (by decide)).1

/-- C7: an empty or whitespace-only question is a no-op: no request is
issued and the message list is unchanged, for every backend outcome. -/
theorem ask_blank_query_noop (q : String) (msgs : List Message)
    (r : AskResult) (hq : jsTrim q = "") :
    handleSubmit q msgs r = (msgs, none) := by
  rw [handleSubmit, if_pos hq]

/-- Witness for C7 at a whitespace-only question. -/
theorem ask_blank_query_noop_witness :
    handleSubmit "   " [⟨"bot", "Hello!"⟩] .error = ([⟨"bot", "Hello!"⟩], none) :=
  ask_blank_query_noop "   " [⟨"bot", "Hello!"⟩] .error (by decide)

end AtalBhujal
